import Mathlib

/-!
Shallow embedding of the c2c-fixie-proxy-clean forwarder variants.

The repository contains several near-duplicate Express proxy servers.  The
definitions below embed, straight from the source:
  * the route-table variant (src/unnamed/part_003, first document): helpers
    pickBaseUrl / lowerHeaders and the core handleProxy split into its pure
    stages (auth gate + outbound-request construction, upstream-response
    relaying, and the catch branch);
  * src/index.cjs (first document): requireProxyKey, pickHeaders, forward,
    and the POST /raw generic forwarder;
  * src/index.js (second document): requireProxyKey (PROXY_KEY variant),
    pickBearer, buildForwardHeaders, the /cd/* route, and sendUpstream.

Header maps are ordered key/value lists with JS-object lookup semantics
(a later assignment to the same key wins).  JS strings are Lean strings;
.trim / .startsWith / .slice / regex trailing-slash stripping are embedded
as executable list-of-char operations.
-/

/-- A header map as the JS code sees it: ordered key/value pairs where a
later assignment to the same key wins on lookup. -/
abbrev Hdrs := List (String × String)

/-- Last-wins lookup, matching JS object assignment semantics. -/
def findLast (hs : Hdrs) (k : String) : Option String :=
  match hs with
  | [] => none
  | kv :: rest =>
    match findLast rest k with
    | some v => some v
    | none => if kv.1 == k then some kv.2 else none

/-- Reading a property of a JS header object (undefined becomes none). -/
def getHeader (hs : Hdrs) (k : String) : Option String := findLast hs k

/-- The JS delete operator on a header object. -/
def deleteHeader (hs : Hdrs) (k : String) : Hdrs := hs.filter (fun kv => kv.1 != k)

/-- Assigning a property of a JS header object. -/
def setHeader (hs : Hdrs) (k v : String) : Hdrs := hs ++ [(k, v)]

/-- JS String.prototype.toLowerCase (ASCII, as used by header names). -/
def strToLower (s : String) : String := String.mk (s.data.map Char.toLower)

/-- JS String.prototype.toUpperCase (ASCII, as used by method names). -/
def strToUpper (s : String) : String := String.mk (s.data.map Char.toUpper)

/-- lowerHeaders from part_003: rebuild the object with lowercased keys. -/
def lowerHeaders (hs : Hdrs) : Hdrs := hs.map (fun kv => ( strToLower kv.1, kv.2))

/-- JS falsy-chaining over optional strings: a || b || ... || "". -/
def firstNonEmptyStr (xs : List (Option String)) : String :=
  match xs with
  | [] => ""
  | none :: rest => firstNonEmptyStr rest
  | some s :: rest => if s = "" then firstNonEmptyStr rest else s

/-- Whitespace in the sense of JS String.prototype.trim (the characters that
occur in this codebase's inputs). -/
def isJsSpace (c : Char) : Bool :=
  c == ' ' || c == '\t' || c == '\n' || c == '\r' || c == '\x0b' || c == '\x0c'

/-- JS String.prototype.trim. -/
def jsTrim (s : String) : String :=
  String.mk (((s.data.dropWhile isJsSpace).reverse.dropWhile isJsSpace).reverse)

/-- JS String.prototype.startsWith. -/
def strStartsWith (s pat : String) : Bool := pat.data.isPrefixOf s.data

/-- JS String.prototype.slice(n) (drop the first n characters). -/
def strDrop (s : String) (n : Nat) : String := String.mk (s.data.drop n)

/-- JS String.prototype.length. -/
def strLen (s : String) : Nat := s.data.length

/-- The regex replace of a trailing run of slashes by the empty string,
baseUrl.replace with pattern slash-plus-end, from part_003 line 147. -/
def stripTrailingSlashes (s : String) : String :=
  String.mk ((s.data.reverse.dropWhile (fun c => c == '/')).reverse)

/-- Strip one leading occurrence of pfx: the ternary on startsWith in
part_003 (lines 143-145) and the anchored regex replace in the other
variants behave identically. -/
def stripPfxOnce (pfx s : String) : String :=
  if strStartsWith s pfx then strDrop s (strLen pfx) else s

/-- A sublist-contiguous (infix) test on character lists. -/
def listInfix (pat : List Char) : List Char → Bool
  | [] => pat.isPrefixOf []
  | c :: rest => pat.isPrefixOf (c :: rest) || listInfix pat rest

/-- JS String.prototype.includes. -/
def strContains (s pat : String) : Bool := listInfix pat.data s.data

/-- JSON.stringify of a flat JSON object (values abstracted as strings; no
claim depends on the serialization format, only on whether a body is sent). -/
def jsonStringify (obj : Hdrs) : String :=
  "\x7b" ++ String.intercalate "," (obj.map (fun kv => "\"" ++ kv.1 ++ "\":\"" ++ kv.2 ++ "\"")) ++ "\x7d"

/-- An inbound Express request.  headers carries the Node-lowercased header
names; body is the express.json-parsed JSON object when one was supplied. -/
structure Request where
  method : String
  originalUrl : String
  headers : Hdrs
  body : Option Hdrs
  deriving Repr, DecidableEq

/-- The outbound upstream call the forwarder is about to execute. -/
structure OutboundRequest where
  url : String
  method : String
  headers : Hdrs
  body : Option String
  deriving Repr, DecidableEq

/-- An error response synthesized by the forwarder itself. -/
structure ErrResp where
  status : Nat
  error : String
  deriving Repr, DecidableEq

/-- What the upstream answered. -/
structure UpstreamResp where
  status : Nat
  headers : Hdrs
  bodyText : String
  deriving Repr, DecidableEq

/-- What the forwarder sends back to its caller on the relay path. -/
structure ProxyResponse where
  status : Nat
  contentType : Option String
  body : String
  deriving Repr, DecidableEq

/-- The environment variables the route-table variant reads ("" = unset). -/
structure Env where
  PROXY_API_KEY : String
  CD_PROXY_INTERNAL_SHARED_SECRET : String
  CD_PAPI_BASE_URL : String
  CONSUMERDIRECT_BASE_URL : String
  deriving Repr, DecidableEq

/-- The two registered routes of the route-table variant. -/
inductive Mode where
  | papi
  | cd
  deriving Repr, DecidableEq

/-- pickBaseUrl from part_003 lines 41-52: env-only, with a hardcoded
production fallback. -/
def pickBaseUrl (env : Env) : String :=
  let papi := jsTrim env.CD_PAPI_BASE_URL
  if papi != "" then papi
  else
    let cdv := jsTrim env.CONSUMERDIRECT_BASE_URL
    if cdv != "" then cdv
    else "https://papi.consumerdirect.io"

/-- The route prefix selected by the mode (part_003 line 142). -/
def modePfx : Mode → String
  | .papi => "/papi"
  | .cd => "/cd"

/-- Which env secret gates the mode (part_003 lines 115 and 127). -/
def modeSecret (env : Env) : Mode → String
  | .papi => env.PROXY_API_KEY
  | .cd => env.CD_PROXY_INTERNAL_SHARED_SECRET

/-- Which inbound header carries the credential (part_003 lines 116 and 128). -/
def modeCredHeader : Mode → String
  | .papi => "x-proxy-api-key"
  | .cd => "x-shared-secret"

/-- The misconfiguration error code per mode (part_003 lines 119 and 133). -/
def modeNotSetCode : Mode → String
  | .papi => "PROXY_API_KEY_NOT_SET"
  | .cd => "CD_PROXY_INTERNAL_SHARED_SECRET_NOT_SET"

/-- The auth-failure error code per mode (part_003 lines 122 and 136). -/
def modeInvalidCode : Mode → String
  | .papi => "INVALID_PROXY_KEY"
  | .cd => "INVALID_SHARED_SECRET"

/-- Target URL construction of part_003 lines 140-147. -/
def targetUrlOf (env : Env) (mode : Mode) (originalUrl : String) : String :=
  stripTrailingSlashes (pickBaseUrl env) ++ stripPfxOnce (modePfx mode) originalUrl

/-- part_003 lines 150-156: spread copy of the lowercased headers followed by
the four delete statements (hop-by-hop + internal auth headers; note that
"connection" is not among them). -/
def stripProxyHeaders (headers : Hdrs) : Hdrs :=
  deleteHeader (deleteHeader (deleteHeader (deleteHeader headers "host") "content-length") "x-proxy-api-key") "x-shared-secret"

/-- part_003 line 159: make sure Accept exists. -/
def withAcceptDefault (h : Hdrs) : Hdrs :=
  if ((getHeader h "accept").getD "") = "" then setHeader h "accept" "application/json" else h

/-- part_003 lines 162-167: pass through body if present. -/
def proxyHasBody (req : Request) : Bool :=
  req.method != "GET" && req.method != "HEAD" &&
    (match req.body with
     | some o => !o.isEmpty
     | none => false)

/-- part_003 lines 169-180: body serialization and the content-type default. -/
def proxyBodyAndHeaders (req : Request) (h1 : Hdrs) : Hdrs × Option String :=
  if proxyHasBody req then
    let ct := strToLower ((getHeader h1 "content-type").getD "")
    if strContains ct "application/json" then
      (h1, some (jsonStringify (req.body.getD [])))
    else
      (setHeader h1 "content-type" "application/json", some (jsonStringify (req.body.getD [])))
  else
    (h1, none)

/-- Outbound-request construction of part_003 handleProxy lines 140-190:
target URL, header stripping, accept default, and body attachment. -/
def handleProxyBuild (env : Env) (mode : Mode) (req : Request) : OutboundRequest :=
  let h1 := withAcceptDefault (stripProxyHeaders (lowerHeaders req.headers))
  let hb := proxyBodyAndHeaders req h1
  ⟨targetUrlOf env mode req.originalUrl, req.method, hb.1, hb.2⟩

/-- handleProxy from part_003 up to the outbound call (lines 109-190): the
auth gates followed by outbound construction.  An .error result means the
handler responded without any upstream call; .ok carries the outbound
request that is then executed. -/
def handleProxyPre (env : Env) (mode : Mode) (req : Request) : Except ErrResp OutboundRequest :=
  let headers := lowerHeaders req.headers
  let expected := jsTrim (modeSecret env mode)
  let provided := jsTrim ((getHeader headers (modeCredHeader mode)).getD "")
  if expected = "" then .error ⟨500, modeNotSetCode mode⟩
  else if provided = "" ∨ provided ≠ expected then .error ⟨401, modeInvalidCode mode⟩
  else .ok (handleProxyBuild env mode req)

/-- The response-relaying tail of part_003 handleProxy (lines 192-204):
mirror status, mirror content-type with an application/json fallback, and
send the upstream body text as-is. -/
def handleProxyPost (u : UpstreamResp) : ProxyResponse :=
  let ct := firstNonEmptyStr [getHeader u.headers "content-type", getHeader u.headers "Content-Type"]
  ⟨u.status, some (if ct = "" then "application/json" else ct), u.bodyText⟩

/-- The catch branch of part_003 handleProxy (lines 205-214): status 502 and
a JSON object with exactly these fields. -/
def handleProxyCatch (mode targetUrl message : String) (proxyConfigured : Bool) : Nat × Hdrs :=
  (502, [("ok", "false"), ("error", "UPSTREAM_REQUEST_FAILED"), ("mode", mode),
         ("targetUrl", targetUrl), ("message", message),
         ("proxyConfigured", if proxyConfigured then "true" else "false")])

/-- The catch branch of the /cd route of src/index.cjs (second document,
lines 312-314): status 500 and a JSON object with exactly these fields. -/
def cdProxyCatch (message : String) : Nat × Hdrs :=
  (500, [("ok", "false"), ("error", "CD_PROXY_EXCEPTION"), ("message", message)])

/-- requireProxyKey from src/index.cjs lines 42-51 ("" models an unset env
var; both are falsy in JS). -/
def requireProxyKeyCjs (PROXY_API_KEY : String) (hs : Hdrs) : Option ErrResp :=
  let key := (getHeader hs "x-proxy-api-key").getD ""
  if PROXY_API_KEY = "" then some ⟨500, "PROXY_API_KEY_NOT_SET_ON_SERVER"⟩
  else if key = "" ∨ key ≠ PROXY_API_KEY then some ⟨401, "UNAUTHORIZED_PROXY_KEY"⟩
  else none

/-- The header names skipped by pickHeaders in src/index.cjs lines 67-73. -/
def bannedCjs (k : String) : Bool :=
  k == "host" || k == "connection" || k == "content-length" || k == "accept-encoding" || k == "x-proxy-api-key"

/-- One iteration of the pickHeaders copy loop (src/index.cjs lines 65-77). -/
def pickStep (acc : Hdrs) (kv : String × String) : Hdrs :=
  if bannedCjs (strToLower kv.1) then acc else setHeader acc (strToLower kv.1) kv.2

/-- pickHeaders from src/index.cjs lines 62-81. -/
def pickHeaders (incoming : Hdrs) : Hdrs :=
  let h := incoming.foldl pickStep []
  if ((getHeader h "user-agent").getD "") = "" then setHeader h "user-agent" "Credit2Credit/1.0 (Render Proxy)" else h

/-- forward from src/index.cjs lines 83-91, up to the fetch call: the
outbound request it executes. -/
def forwardOutbound (method url : String) (hs : Hdrs) (body : Option String) : OutboundRequest :=
  let h := pickHeaders hs
  if body.isSome && !(strToUpper method == "GET" || strToUpper method == "HEAD") then
    ⟨url, method, h, body⟩
  else
    ⟨url, method, h, none⟩

/-- The JSON body accepted by POST /raw (src/index.cjs lines 167-179). -/
structure RawBody where
  method : Option String
  url : Option String
  headers : Option Hdrs
  body : Option String
  deriving Repr, DecidableEq

/-- The POST /raw route of src/index.cjs lines 167-197, up to the outbound
call: auth gate, argument validation, then forward with the caller-supplied
method, url, headers and body. -/
def rawRoute (PROXY_API_KEY : String) (req : Request) (parsed : RawBody) : Except ErrResp OutboundRequest :=
  match requireProxyKeyCjs PROXY_API_KEY req.headers with
  | some e => .error e
  | none =>
    let m := parsed.method.getD ""
    let u := parsed.url.getD ""
    if m = "" ∨ u = "" then .error ⟨400, "MISSING_METHOD_OR_URL"⟩
    else .ok (forwardOutbound m u (parsed.headers.getD req.headers) parsed.body)

/-- requireProxyKey from src/index.js (second document, lines 241-261):
note the fail-open first line when no key is configured. -/
def requireProxyKeyJs (PROXY_KEY : String) (hs : Hdrs) : Option String :=
  if PROXY_KEY = "" then none
  else
    let provided := firstNonEmptyStr
      [getHeader hs "x-cd-proxy-secret", getHeader hs "x-proxy-api-key", getHeader hs "x-shared-secret"]
    if provided = "" ∨ provided ≠ PROXY_KEY then some "Unauthorized (missing/invalid proxy key)" else none

/-- pickBearer from src/index.js (second document, lines 263-271). -/
def pickBearer (hs : Hdrs) : String :=
  firstNonEmptyStr [getHeader hs "x-cd-authorization", getHeader hs "authorization"]

/-- buildForwardHeaders from src/index.js (second document, lines 273-287). -/
def buildForwardHeaders (hs : Hdrs) : Hdrs :=
  let ua := firstNonEmptyStr [getHeader hs "user-agent", some "Credit2Credit/1.0 (Render; Fixie; Proxy)"]
  let acc := firstNonEmptyStr [getHeader hs "accept", some "application/json"]
  let h0 : Hdrs := [("user-agent", ua), ("accept", acc)]
  let ct := (getHeader hs "content-type").getD ""
  let h1 := if ct = "" then h0 else setHeader h0 "content-type" ct
  let bearer := pickBearer hs
  if bearer = "" then h1 else setHeader h1 "authorization" bearer

/-- The /cd/* route of src/index.js (second document, lines 372-394) up to
the outbound call. -/
def cdAllRoutePre (PROXY_KEY BASE_URL : String) (req : Request) : Except ErrResp OutboundRequest :=
  match requireProxyKeyJs PROXY_KEY req.headers with
  | some msg => .error ⟨401, msg⟩
  | none =>
    let pathAndQuery := stripPfxOnce "/cd" req.originalUrl
    let url := BASE_URL ++ pathAndQuery
    let h0 := buildForwardHeaders req.headers
    if req.method != "GET" && req.method != "HEAD" then
      let h1 := if ((getHeader h0 "content-type").getD "") = "" then setHeader h0 "content-type" "application/json" else h0
      .ok ⟨url, req.method, h1, some (jsonStringify (req.body.getD []))⟩
    else
      .ok ⟨url, req.method, h0, none⟩

/-- sendUpstream from src/index.js (second document, lines 305-315). -/
def sendUpstreamModel (u : UpstreamResp) : ProxyResponse :=
  let ct := (getHeader u.headers "content-type").getD ""
  ⟨u.status, if ct = "" then none else some ct, u.bodyText⟩

/-- Whether the handler reached the outbound call. -/
def isForward : Except ErrResp OutboundRequest → Bool
  | .ok _ => true
  | .error _ => false

/-- The status of the locally synthesized response, when there is one. -/
def errStatus : Except ErrResp OutboundRequest → Option Nat
  | .ok _ => none
  | .error e => some e.status

/-- The outbound target URL, when an outbound call happens. -/
def outUrl : Except ErrResp OutboundRequest → Option String
  | .ok o => some o.url
  | .error _ => none

/-- One outbound header, when an outbound call happens. -/
def outboundHeader (r : Except ErrResp OutboundRequest) (k : String) : Option String :=
  match r with
  | .ok o => getHeader o.headers k
  | .error _ => none

/-- The outbound body, when an outbound call happens. -/
def outboundBody : Except ErrResp OutboundRequest → Option String
  | .ok o => o.body
  | .error _ => none

/-! Helper lemmas about the header-object and string embeddings. -/

theorem strMk_data (s : String) : String.mk s.data = s := by
  cases s
  rfl

theorem getHeader_append_single_ne (hs : Hdrs) (k k2 v : String) (h : k2 ≠ k) :
    getHeader (hs ++ [(k2, v)]) k = getHeader hs k := by
  induction hs with
  | nil =>
    simp [getHeader, findLast, h]
  | cons kv rest ih =>
    show findLast (kv :: (rest ++ [(k2, v)])) k = findLast (kv :: rest) k
    simp only [getHeader] at ih
    simp only [findLast, ih]

theorem getHeader_append_single_eq (hs : Hdrs) (k v : String) :
    getHeader (hs ++ [(k, v)]) k = some v := by
  induction hs with
  | nil =>
    simp [getHeader, findLast]
  | cons kv rest ih =>
    show findLast (kv :: (rest ++ [(k, v)])) k = some v
    simp only [getHeader] at ih
    simp only [findLast, ih]

theorem getHeader_setHeader_eq (hs : Hdrs) (k v : String) :
    getHeader (setHeader hs k v) k = some v :=
  getHeader_append_single_eq hs k v

theorem getHeader_setHeader_ne (hs : Hdrs) (k k2 v : String) (h : k2 ≠ k) :
    getHeader (setHeader hs k2 v) k = getHeader hs k :=
  getHeader_append_single_ne hs k k2 v h

theorem getHeader_deleteHeader_self (hs : Hdrs) (k : String) :
    getHeader (deleteHeader hs k) k = none := by
  induction hs with
  | nil => rfl
  | cons kv rest ih =>
    simp only [getHeader, deleteHeader] at ih ⊢
    rw [List.filter_cons]
    by_cases hk : kv.1 = k
    · simp only [bne, hk, beq_self_eq_true, Bool.not_true, Bool.false_eq_true, if_false]
      exact ih
    · have hb : (kv.1 != k) = true := by simp [bne, hk]
      simp only [hb, if_pos]
      simp only [findLast, ih]
      simp [hk]

theorem getHeader_deleteHeader_ne (hs : Hdrs) (k k2 : String) (h : k ≠ k2) :
    getHeader (deleteHeader hs k2) k = getHeader hs k := by
  induction hs with
  | nil => rfl
  | cons kv rest ih =>
    simp only [getHeader, deleteHeader] at ih ⊢
    rw [List.filter_cons]
    by_cases hk : kv.1 = k2
    · have hb : (kv.1 != k2) = false := by simp [bne, hk]
      simp only [hb, Bool.false_eq_true, if_false]
      rw [ih]
      have hkk : (kv.1 == k) = false := by
        rw [beq_eq_false_iff_ne, hk]
        exact fun he => h he.symm
      simp only [findLast, hkk, Bool.false_eq_true, if_false]
      cases findLast rest k <;> rfl
    · have hb : (kv.1 != k2) = true := by simp [bne, hk]
      simp only [hb, if_pos]
      simp only [findLast, ih]

theorem isPrefixOf_append_self (l m : List Char) : l.isPrefixOf (l ++ m) = true := by
  induction l with
  | nil => simp [List.isPrefixOf]
  | cons c t ih => simp [List.isPrefixOf, ih]

theorem stripPfxOnce_append (pfx s : String) : stripPfxOnce pfx (pfx ++ s) = s := by
  unfold stripPfxOnce strStartsWith strDrop strLen
  rw [String.data_append, isPrefixOf_append_self]
  simp only [if_pos]
  rw [List.drop_left, strMk_data]

theorem stripPfxOnce_not (pfx s : String) (h : strStartsWith s pfx = false) :
    stripPfxOnce pfx s = s := by
  unfold stripPfxOnce
  rw [h]
  simp

theorem stripTrailingSlashes_eq_self (s : String) (h : s.data.getLast? ≠ some '/') :
    stripTrailingSlashes s = s := by
  have hdw : s.data.reverse.dropWhile (fun c => c == '/') = s.data.reverse := by
    cases hm : s.data.reverse with
    | nil => rfl
    | cons c t =>
      have hc : (c == '/') = false := by
        rw [beq_eq_false_iff_ne]
        intro hEq
        apply h
        rw [← List.head?_reverse, hm, hEq]
        rfl
      simp [List.dropWhile_cons, hc]
  unfold stripTrailingSlashes
  rw [hdw, List.reverse_reverse, strMk_data]

theorem dropWhile_append_of_all (p : Char → Bool) (w l : List Char) (hw : w.all p = true) :
    (w ++ l).dropWhile p = l.dropWhile p := by
  induction w with
  | nil => rfl
  | cons c t ih =>
    rw [List.all_cons, Bool.and_eq_true] at hw
    rw [List.cons_append]
    simp [List.dropWhile_cons, hw.1, ih hw.2]

theorem dropWhile_append_of_ne_nil (p : Char → Bool) (l m : List Char)
    (h : l.dropWhile p ≠ []) : (l ++ m).dropWhile p = l.dropWhile p ++ m := by
  induction l with
  | nil => exact absurd rfl h
  | cons c t ih =>
    by_cases hc : p c = true
    · rw [List.cons_append]
      simp only [List.dropWhile_cons, hc, if_pos] at h ⊢
      exact ih h
    · have hcf : p c = false := by simpa using hc
      rw [List.cons_append]
      simp [List.dropWhile_cons, hcf]

theorem jsTrim_pad (w1 w2 s : String) (h1 : w1.data.all isJsSpace = true)
    (h2 : w2.data.all isJsSpace = true) : jsTrim (w1 ++ s ++ w2) = jsTrim s := by
  unfold jsTrim
  congr 1
  rw [String.data_append, String.data_append, List.append_assoc,
      dropWhile_append_of_all _ _ _ h1]
  by_cases hnil : s.data.dropWhile isJsSpace = []
  · have hall : ∀ x ∈ s.data, isJsSpace x = true := List.dropWhile_eq_nil_iff.mp hnil
    have hall2 : (s.data ++ w2.data).dropWhile isJsSpace = [] := by
      rw [List.dropWhile_eq_nil_iff]
      intro x hx
      rcases List.mem_append.mp hx with hx | hx
      · exact hall x hx
      · exact List.all_eq_true.mp h2 x hx
    rw [hall2, hnil]
  · rw [dropWhile_append_of_ne_nil _ _ _ hnil, List.reverse_append,
        dropWhile_append_of_all _ _ _ (by simpa using h2)]

theorem handleProxyPre_cases (env : Env) (mode : Mode) (req : Request) :
    handleProxyPre env mode req = Except.ok (handleProxyBuild env mode req) ∨
    ∃ e, handleProxyPre env mode req = Except.error e := by
  unfold handleProxyPre
  dsimp only
  split
  · exact Or.inr ⟨_, rfl⟩
  · split
    · exact Or.inr ⟨_, rfl⟩
    · exact Or.inl rfl

theorem handleProxyPre_500 (env : Env) (mode : Mode) (req : Request)
    (hz : jsTrim (modeSecret env mode) = "") :
    handleProxyPre env mode req = Except.error ⟨500, modeNotSetCode mode⟩ := by
  unfold handleProxyPre
  dsimp only
  rw [if_pos hz]

theorem handleProxyPre_401 (env : Env) (mode : Mode) (req : Request)
    (hne : jsTrim (modeSecret env mode) ≠ "")
    (hbad : jsTrim ((getHeader (lowerHeaders req.headers) (modeCredHeader mode)).getD "") = "" ∨
      jsTrim ((getHeader (lowerHeaders req.headers) (modeCredHeader mode)).getD "") ≠
        jsTrim (modeSecret env mode)) :
    handleProxyPre env mode req = Except.error ⟨401, modeInvalidCode mode⟩ := by
  unfold handleProxyPre
  dsimp only
  rw [if_neg hne, if_pos hbad]

theorem handleProxyPre_ok (env : Env) (mode : Mode) (req : Request)
    (hne : jsTrim (modeSecret env mode) ≠ "")
    (hgood : jsTrim ((getHeader (lowerHeaders req.headers) (modeCredHeader mode)).getD "") =
      jsTrim (modeSecret env mode)) :
    handleProxyPre env mode req = Except.ok (handleProxyBuild env mode req) := by
  unfold handleProxyPre
  dsimp only
  rw [if_neg hne, if_neg]
  push_neg
  rw [hgood]
  exact ⟨hne, rfl⟩

theorem handleProxyBuild_url (env : Env) (mode : Mode) (req : Request) :
    (handleProxyBuild env mode req).url = targetUrlOf env mode req.originalUrl := rfl

theorem proxyHasBody_false_of_get_head (req : Request)
    (h : req.method = "GET" ∨ req.method = "HEAD") : proxyHasBody req = false := by
  rcases h with h | h <;> simp [proxyHasBody, h]

theorem proxyBodyAndHeaders_snd_none (req : Request) (h1 : Hdrs)
    (h : proxyHasBody req = false) : (proxyBodyAndHeaders req h1).2 = none := by
  simp [proxyBodyAndHeaders, h]

theorem handleProxyBuild_body_none (env : Env) (mode : Mode) (req : Request)
    (h : req.method = "GET" ∨ req.method = "HEAD") :
    (handleProxyBuild env mode req).body = none := by
  unfold handleProxyBuild
  dsimp only
  exact proxyBodyAndHeaders_snd_none req _ (proxyHasBody_false_of_get_head req h)

theorem proxyHasBody_true_of_post (req : Request) (hm : req.method = "POST")
    (hb : (match req.body with | some o => !o.isEmpty | none => false) = true) :
    proxyHasBody req = true := by
  simp [proxyHasBody, hm, hb]

theorem handleProxyBuild_body_some (env : Env) (mode : Mode) (req : Request)
    (h : proxyHasBody req = true) :
    (handleProxyBuild env mode req).body.isSome = true := by
  unfold handleProxyBuild proxyBodyAndHeaders
  dsimp only
  rw [if_pos h]
  split <;> rfl

theorem stripProxyHeaders_none (headers : Hdrs) (k : String)
    (hk : k = "host" ∨ k = "content-length" ∨ k = "x-proxy-api-key" ∨ k = "x-shared-secret") :
    getHeader (stripProxyHeaders headers) k = none := by
  unfold stripProxyHeaders
  rcases hk with rfl | rfl | rfl | rfl
  · rw [getHeader_deleteHeader_ne _ _ _ (by decide), getHeader_deleteHeader_ne _ _ _ (by decide),
        getHeader_deleteHeader_ne _ _ _ (by decide), getHeader_deleteHeader_self]
  · rw [getHeader_deleteHeader_ne _ _ _ (by decide), getHeader_deleteHeader_ne _ _ _ (by decide),
        getHeader_deleteHeader_self]
  · rw [getHeader_deleteHeader_ne _ _ _ (by decide), getHeader_deleteHeader_self]
  · rw [getHeader_deleteHeader_self]

theorem withAcceptDefault_preserved (h : Hdrs) (k : String) (hk : k ≠ "accept") :
    getHeader (withAcceptDefault h) k = getHeader h k := by
  unfold withAcceptDefault
  split
  · exact getHeader_setHeader_ne _ _ _ _ (fun he => hk he.symm)
  · rfl

theorem proxyBodyAndHeaders_fst_preserved (req : Request) (h1 : Hdrs) (k : String)
    (hk : k ≠ "content-type") :
    getHeader (proxyBodyAndHeaders req h1).1 k = getHeader h1 k := by
  unfold proxyBodyAndHeaders
  split
  · dsimp only
    split
    · rfl
    · exact getHeader_setHeader_ne _ _ _ _ (fun he => hk he.symm)
  · rfl

theorem handleProxyBuild_header_none (env : Env) (mode : Mode) (req : Request) (k : String)
    (hk : k = "host" ∨ k = "content-length" ∨ k = "x-proxy-api-key" ∨ k = "x-shared-secret") :
    getHeader (handleProxyBuild env mode req).headers k = none := by
  have hk1 : k ≠ "content-type" := by rcases hk with rfl | rfl | rfl | rfl <;> decide
  have hk2 : k ≠ "accept" := by rcases hk with rfl | rfl | rfl | rfl <;> decide
  unfold handleProxyBuild
  dsimp only
  rw [proxyBodyAndHeaders_fst_preserved _ _ _ hk1, withAcceptDefault_preserved _ _ hk2,
      stripProxyHeaders_none _ _ hk]

theorem foldl_pickStep_banned (hs : Hdrs) (acc : Hdrs) (k : String)
    (hb : bannedCjs k = true) (hacc : getHeader acc k = none) :
    getHeader (hs.foldl pickStep acc) k = none := by
  induction hs generalizing acc with
  | nil => exact hacc
  | cons kv rest ih =>
    rw [List.foldl_cons]
    apply ih
    unfold pickStep
    split
    · exact hacc
    · rename_i hnb
      have hne : strToLower kv.1 ≠ k := by
        intro he
        rw [he] at hnb
        exact hnb hb
      rw [getHeader_setHeader_ne _ _ _ _ hne]
      exact hacc

theorem bannedCjs_ne_ua (k : String) (hb : bannedCjs k = true) : k ≠ "user-agent" := by
  unfold bannedCjs at hb
  simp only [Bool.or_eq_true, beq_iff_eq] at hb
  rcases hb with (((rfl | rfl) | rfl) | rfl) | rfl <;> decide

theorem pickHeaders_banned_none (hs : Hdrs) (k : String) (hb : bannedCjs k = true) :
    getHeader (pickHeaders hs) k = none := by
  unfold pickHeaders
  dsimp only
  have h0 : getHeader (hs.foldl pickStep []) k = none := foldl_pickStep_banned hs [] k hb rfl
  split
  · rw [getHeader_setHeader_ne _ _ _ _ (fun he => (bannedCjs_ne_ua k hb) he.symm)]
    exact h0
  · exact h0

theorem forwardOutbound_body_none (m u : String) (hs : Hdrs) (b : Option String)
    (h : strToUpper m = "GET" ∨ strToUpper m = "HEAD") : (forwardOutbound m u hs b).body = none := by
  unfold forwardOutbound
  rcases h with h | h <;> simp [h]

theorem buildForwardHeaders_auth_some (hs : Hdrs) (hb : pickBearer hs ≠ "") :
    getHeader (buildForwardHeaders hs) "authorization" = some (pickBearer hs) := by
  unfold buildForwardHeaders
  dsimp only
  rw [if_neg hb]
  exact getHeader_setHeader_eq _ _ _

theorem buildForwardHeaders_auth_none (hs : Hdrs) (hb : pickBearer hs = "") :
    getHeader (buildForwardHeaders hs) "authorization" = none := by
  unfold buildForwardHeaders
  dsimp only
  rw [if_pos hb]
  split
  · rfl
  · rw [getHeader_setHeader_ne _ _ _ _ (by decide)]
    rfl

theorem pickBearer_carrier (hs : Hdrs) (c : String)
    (hc : getHeader hs "x-cd-authorization" = some c) (hcne : c ≠ "") : pickBearer hs = c := by
  unfold pickBearer
  rw [hc]
  simp [firstNonEmptyStr, hcne]

/-! Claim-level concrete inputs. -/

def envU : Env := ⟨"k", "s", "https://u.example", ""⟩

def reqC1w : Request := ⟨"GET", "/papi/v1/x?q=1", [("x-proxy-api-key", "k")], none⟩

def reqC2cex : Request := ⟨"GET", "/papi/v1/x", [("x-proxy-api-key", "s3cret ")], none⟩

def envC2cex : Env := ⟨"s3cret", "shh", "https://u.example", ""⟩

def reqC2w : Request := ⟨"GET", "/papi/v1/x", [("x-proxy-api-key", "wrong")], none⟩

def envC3w : Env := ⟨"", "x", "", ""⟩

def reqC3w : Request := ⟨"GET", "/papi/v1/x", [], none⟩

def reqC6cex : Request :=
  ⟨"GET", "/papi/v1/x", [("x-proxy-api-key", "k"), ("connection", "keep-alive")], none⟩

def reqC6w : Request := ⟨"GET", "/papi/v1/x", [("x-proxy-api-key", "k"), ("host", "proxy.local")], none⟩

def reqC7w : Request := ⟨"GET", "/papi/v1/x", [("x-proxy-api-key", "k")], some [("agentId", "joelb")]⟩

def envC10w : Env := ⟨"tok", "s", "", ""⟩

def reqC10w : Request := ⟨"GET", "/papi/v1/x", [("x-proxy-api-key", "  tok ")], none⟩

/-- Claim C1 (counterexample): the POST /raw forwarder of src/index.cjs sends
the outbound request to the URL taken from the caller-supplied JSON body, so
the upstream target is caller input, not static route configuration: two
requests identical except for the caller-chosen url field hit two different
upstream hosts under the same configuration. -/
theorem C1_raw_url_caller_controlled :
    outUrl (rawRoute "k" ⟨"POST", "/raw", [("x-proxy-api-key", "k")], none⟩
      ⟨some "GET", some "https://attacker.example/steal", some [], none⟩) =
      some "https://attacker.example/steal" ∧
    outUrl (rawRoute "k" ⟨"POST", "/raw", [("x-proxy-api-key", "k")], none⟩
      ⟨some "GET", some "https://other.example/x", some [], none⟩) =
      some "https://other.example/x" := ⟨rfl, rfl⟩

/-- Claim C1 (amended): for the prefix-routed forwarders (handleProxy for
/papi and /cd), whenever an outbound call happens its target URL is the
environment-determined base (pickBaseUrl env, trailing slashes stripped)
followed by the path remainder; the base never depends on the request. -/
theorem C1_routed_base_from_env (env : Env) (mode : Mode) (req : Request)
    (h : isForward (handleProxyPre env mode req) = true) :
    outUrl (handleProxyPre env mode req) =
      some (stripTrailingSlashes (pickBaseUrl env) ++ stripPfxOnce (modePfx mode) req.originalUrl) := by
  rcases handleProxyPre_cases env mode req with hok | ⟨e, herr⟩
  · rw [hok]
    rfl
  · rw [herr] at h
    simp [isForward] at h

/-- Witness for C1_routed_base_from_env at a concrete request. -/
theorem C1_routed_base_from_env_witness :
    outUrl (handleProxyPre envU Mode.papi reqC1w) =
      some (stripTrailingSlashes (pickBaseUrl envU) ++ stripPfxOnce (modePfx Mode.papi) reqC1w.originalUrl) :=
  C1_routed_base_from_env envU Mode.papi reqC1w (by decide)

/-- Claim C2 (counterexample): in the route-table variant both credential
sides are trimmed, so a supplied credential that differs from the configured
secret (here by a trailing space) is nevertheless accepted and the request
is forwarded instead of getting a 401 with zero outbound calls. -/
theorem C2_trimmed_credential_still_forwarded :
    isForward (handleProxyPre envC2cex Mode.papi reqC2cex) = true ∧
    ("s3cret " : String) ≠ envC2cex.PROXY_API_KEY := ⟨rfl, by decide⟩

/-- Claim C2 (amended): with a nonempty configured secret, a request whose
whitespace-trimmed credential is missing or differs from the trimmed secret
gets status 401 and no outbound call in the route-table variant; the
index.cjs variant compares untrimmed and 401s on any mismatch. -/
theorem C2_auth_failure_401_no_forward :
    (∀ (env : Env) (mode : Mode) (req : Request),
      jsTrim (modeSecret env mode) ≠ "" →
      (jsTrim ((getHeader (lowerHeaders req.headers) (modeCredHeader mode)).getD "") = "" ∨
       jsTrim ((getHeader (lowerHeaders req.headers) (modeCredHeader mode)).getD "") ≠
         jsTrim (modeSecret env mode)) →
      errStatus (handleProxyPre env mode req) = some 401 ∧
      isForward (handleProxyPre env mode req) = false) ∧
    (∀ (key : String) (hs : Hdrs), key ≠ "" →
      (getHeader hs "x-proxy-api-key").getD "" ≠ key →
      requireProxyKeyCjs key hs = some ⟨401, "UNAUTHORIZED_PROXY_KEY"⟩) := by
  constructor
  · intro env mode req hne hbad
    rw [handleProxyPre_401 env mode req hne hbad]
    exact ⟨rfl, rfl⟩
  · intro key hs hk hne
    unfold requireProxyKeyCjs
    dsimp only
    rw [if_neg hk, if_pos (Or.inr hne)]

/-- Witness for C2_auth_failure_401_no_forward at concrete requests. -/
theorem C2_auth_failure_401_no_forward_witness :
    (errStatus (handleProxyPre envC2cex Mode.papi reqC2w) = some 401 ∧
     isForward (handleProxyPre envC2cex Mode.papi reqC2w) = false) ∧
    requireProxyKeyCjs "k" [("x-proxy-api-key", "bad")] = some ⟨401, "UNAUTHORIZED_PROXY_KEY"⟩ :=
  ⟨C2_auth_failure_401_no_forward.1 envC2cex Mode.papi reqC2w (by decide) (by decide),
   C2_auth_failure_401_no_forward.2 "k" [("x-proxy-api-key", "bad")] (by decide) (by decide)⟩

/-- Claim C3 (counterexample): in the src/index.js variant, an unset
PROXY_KEY makes requireProxyKey allow every request, so a credential-less
request to /cd/* is forwarded instead of failing with a 500-class
misconfiguration response. -/
theorem C3_unset_secret_allows_traffic :
    isForward (cdAllRoutePre "" "https://papi.consumerdirect.io" ⟨"GET", "/cd/v1/x", [], none⟩) = true ∧
    requireProxyKeyJs "" [] = none := ⟨rfl, rfl⟩

/-- Claim C3 (amended): the route-table variant and the index.cjs variant do
fail closed: an unset or whitespace-only secret yields a 500-class response
and no forwarding; the index.js variant instead allows all requests through
when its PROXY_KEY is unset. -/
theorem C3_unset_secret_fails_closed_variants :
    (∀ (env : Env) (mode : Mode) (req : Request), jsTrim (modeSecret env mode) = "" →
      errStatus (handleProxyPre env mode req) = some 500 ∧
      isForward (handleProxyPre env mode req) = false) ∧
    (∀ hs : Hdrs, requireProxyKeyCjs "" hs = some ⟨500, "PROXY_API_KEY_NOT_SET_ON_SERVER"⟩) := by
  constructor
  · intro env mode req hz
    rw [handleProxyPre_500 env mode req hz]
    exact ⟨rfl, rfl⟩
  · intro hs
    unfold requireProxyKeyCjs
    dsimp only
    rw [if_pos rfl]

/-- Witness for C3_unset_secret_fails_closed_variants at a concrete request. -/
theorem C3_unset_secret_fails_closed_variants_witness :
    errStatus (handleProxyPre envC3w Mode.papi reqC3w) = some 500 ∧
    isForward (handleProxyPre envC3w Mode.papi reqC3w) = false :=
  C3_unset_secret_fails_closed_variants.1 envC3w Mode.papi reqC3w (by decide)

/-- Claim C4 (confirmed): whatever status the upstream answers (2xx or not),
the relaying tail of handleProxy and sendUpstream of the index.js variant
return exactly the upstream status, its content-type, and its body text
unchanged. -/
theorem C4_response_passthrough (u : UpstreamResp) (T : String)
    (h : getHeader u.headers "content-type" = some T) (hT : T ≠ "") :
    handleProxyPost u = ⟨u.status, some T, u.bodyText⟩ ∧
    sendUpstreamModel u = ⟨u.status, some T, u.bodyText⟩ := by
  constructor
  · unfold handleProxyPost
    dsimp only
    rw [h]
    simp [firstNonEmptyStr, hT]
  · unfold sendUpstreamModel
    dsimp only
    rw [h]
    simp [hT]

/-- Witness for C4_response_passthrough at a concrete (non-2xx) upstream
response. -/
theorem C4_response_passthrough_witness :
    handleProxyPost ⟨503, [("content-type", "text/html")], "oops"⟩ = ⟨503, some "text/html", "oops"⟩ ∧
    sendUpstreamModel ⟨503, [("content-type", "text/html")], "oops"⟩ = ⟨503, some "text/html", "oops"⟩ :=
  C4_response_passthrough ⟨503, [("content-type", "text/html")], "oops"⟩ "text/html" rfl (by decide)

/-- Claim C5 (confirmed): for an upstream base without a trailing slash, a
request to prefix ++ s is forwarded to exactly base ++ s (prefix stripped
once, query string inside s preserved, no double slash), and a path that
does not start with the prefix is used whole as the remainder. -/
theorem C5_prefix_strip_query_preserved (env : Env) (mode : Mode)
    (hs : (pickBaseUrl env).data.getLast? ≠ some '/') :
    (∀ s : String, targetUrlOf env mode (modePfx mode ++ s) = pickBaseUrl env ++ s) ∧
    (∀ p2 : String, strStartsWith p2 (modePfx mode) = false →
      targetUrlOf env mode p2 = pickBaseUrl env ++ p2) := by
  constructor
  · intro s
    unfold targetUrlOf
    rw [stripTrailingSlashes_eq_self _ hs, stripPfxOnce_append]
  · intro p2 hp
    unfold targetUrlOf
    rw [stripTrailingSlashes_eq_self _ hs, stripPfxOnce_not _ _ hp]

/-- Witness for C5_prefix_strip_query_preserved at the spec's example path. -/
theorem C5_prefix_strip_query_preserved_witness :
    targetUrlOf envU Mode.papi ("/papi" ++ "/v1/x?q=1") = pickBaseUrl envU ++ "/v1/x?q=1" ∧
    targetUrlOf envU Mode.papi "/other/v1" = pickBaseUrl envU ++ "/other/v1" :=
  ⟨(C5_prefix_strip_query_preserved envU Mode.papi (by decide)).1 "/v1/x?q=1",
   (C5_prefix_strip_query_preserved envU Mode.papi (by decide)).2 "/other/v1" (by decide)⟩

/-- Claim C6 (counterexample): handleProxy of the route-table variant does
not delete the connection header, so an inbound connection header reaches
the outbound request's headers. -/
theorem C6_connection_header_forwarded :
    outboundHeader (handleProxyPre envU Mode.papi reqC6cex) "connection" = some "keep-alive" := rfl

/-- Claim C6 (amended): the outbound headers of handleProxy never contain
host, content-length, or either credential header (x-proxy-api-key,
x-shared-secret); connection is additionally stripped only by pickHeaders of
the index.cjs variant, not by handleProxy. -/
theorem C6_hop_by_hop_and_credential_stripped :
    (∀ (env : Env) (mode : Mode) (req : Request) (k : String),
      (k = "host" ∨ k = "content-length" ∨ k = "x-proxy-api-key" ∨ k = "x-shared-secret") →
      isForward (handleProxyPre env mode req) = true →
      outboundHeader (handleProxyPre env mode req) k = none) ∧
    (∀ (hs : Hdrs) (k : String), bannedCjs k = true → getHeader (pickHeaders hs) k = none) := by
  constructor
  · intro env mode req k hk h
    rcases handleProxyPre_cases env mode req with hok | ⟨e, herr⟩
    · rw [hok]
      exact handleProxyBuild_header_none env mode req k hk
    · rw [herr] at h
      simp [isForward] at h
  · intro hs k hb
    exact pickHeaders_banned_none hs k hb

/-- Witness for C6_hop_by_hop_and_credential_stripped at a concrete request
that supplies a host header and the credential header. -/
theorem C6_hop_by_hop_and_credential_stripped_witness :
    outboundHeader (handleProxyPre envU Mode.papi reqC6w) "host" = none ∧
    getHeader (pickHeaders [("Connection", "keep-alive"), ("accept", "text/plain")]) "connection" = none :=
  ⟨C6_hop_by_hop_and_credential_stripped.1 envU Mode.papi reqC6w "host" (Or.inl rfl) (by decide),
   C6_hop_by_hop_and_credential_stripped.2 [("Connection", "keep-alive"), ("accept", "text/plain")] "connection" (by decide)⟩

/-- Claim C7 (confirmed): GET and HEAD requests never carry a body to the
upstream, in handleProxy (even when the inbound request supplied a JSON
body) and in forward of index.cjs (any casing of the method); for other
methods with a nonempty JSON object body, handleProxy does attach one. -/
theorem C7_get_head_no_body :
    (∀ (env : Env) (mode : Mode) (req : Request), (req.method = "GET" ∨ req.method = "HEAD") →
      outboundBody (handleProxyPre env mode req) = none) ∧
    (∀ (m u : String) (hs : Hdrs) (b : Option String),
      (strToUpper m = "GET" ∨ strToUpper m = "HEAD") → (forwardOutbound m u hs b).body = none) ∧
    (∀ (env : Env) (mode : Mode) (req : Request), req.method = "POST" →
      (match req.body with | some o => !o.isEmpty | none => false) = true →
      isForward (handleProxyPre env mode req) = true →
      (outboundBody (handleProxyPre env mode req)).isSome = true) := by
  refine ⟨?_, ?_, ?_⟩
  · intro env mode req h
    rcases handleProxyPre_cases env mode req with hok | ⟨e, herr⟩
    · rw [hok]
      exact handleProxyBuild_body_none env mode req h
    · rw [herr]
      rfl
  · intro m u hs b h
    exact forwardOutbound_body_none m u hs b h
  · intro env mode req hm hb hf
    rcases handleProxyPre_cases env mode req with hok | ⟨e, herr⟩
    · rw [hok]
      exact handleProxyBuild_body_some env mode req (proxyHasBody_true_of_post req hm hb)
    · rw [herr] at hf
      simp [isForward] at hf

/-- Witness for C7_get_head_no_body: a GET that supplied a JSON body is
forwarded without one, and a lowercase get through forward carries none. -/
theorem C7_get_head_no_body_witness :
    outboundBody (handleProxyPre envU Mode.papi reqC7w) = none ∧
    (forwardOutbound "get" "https://u.example/x" [] (some "ignored")).body = none :=
  ⟨C7_get_head_no_body.1 envU Mode.papi reqC7w (Or.inl rfl),
   C7_get_head_no_body.2.1 "get" "https://u.example/x" [] (some "ignored") (Or.inl (by decide))⟩

/-- Claim C8 (counterexample): the catch response of handleProxy carries
mode, targetUrl and message but no field holding the HTTP method (here a
failed POST whose method appears nowhere in the response), and the /cd
catch of index.cjs carries only a message, without the attempted URL. -/
theorem C8_method_absent_from_error_response :
    (((handleProxyCatch "papi" "https://u.example/v1/x" "connect ECONNREFUSED" true).2.map
        Prod.fst).contains "method") = false ∧
    (((handleProxyCatch "papi" "https://u.example/v1/x" "connect ECONNREFUSED" true).2.map
        Prod.snd).all (fun v => !(strContains v "POST"))) = true ∧
    (((cdProxyCatch "fetch failed").2.map Prod.fst).contains "targetUrl") = false := by
  decide

/-- Claim C8 (amended): a transport failure produces a structured response,
not an unhandled exception: status 502 with a stable error code, the
transport error message and the attempted upstream URL in the route-table
variant (plus the route mode, but not the HTTP method), and status 500 with
the message alone in the index.cjs /cd variant. -/
theorem C8_transport_error_structured (mode targetUrl message : String) (pc : Bool) :
    (handleProxyCatch mode targetUrl message pc).1 = 502 ∧
    getHeader (handleProxyCatch mode targetUrl message pc).2 "error" = some "UPSTREAM_REQUEST_FAILED" ∧
    getHeader (handleProxyCatch mode targetUrl message pc).2 "message" = some message ∧
    getHeader (handleProxyCatch mode targetUrl message pc).2 "targetUrl" = some targetUrl ∧
    (cdProxyCatch message).1 = 500 ∧
    getHeader (cdProxyCatch message).2 "message" = some message := by
  refine ⟨rfl, ?_, ?_, ?_, rfl, ?_⟩ <;> rfl

/-- Claim C9 (counterexample): when both the carrier header and the standard
authorization header are present, buildForwardHeaders forwards the carrier
value, not the standard one as the claim states. -/
theorem C9_carrier_wins_when_both_present :
    getHeader (buildForwardHeaders
      [("x-cd-authorization", "Bearer CARRIER"), ("authorization", "Bearer STANDARD")])
      "authorization" = some "Bearer CARRIER" ∧
    ("Bearer CARRIER" : String) ≠ "Bearer STANDARD" := ⟨rfl, by decide⟩

/-- Claim C9 (amended): the outbound authorization header equals pickBearer,
which prefers the carrier header x-cd-authorization over the standard
authorization header (promotion happens even when the standard header is
present); when pickBearer is empty no authorization header is forwarded. -/
theorem C9_carrier_over_standard :
    (∀ hs : Hdrs, pickBearer hs ≠ "" →
      getHeader (buildForwardHeaders hs) "authorization" = some (pickBearer hs)) ∧
    (∀ hs : Hdrs, pickBearer hs = "" →
      getHeader (buildForwardHeaders hs) "authorization" = none) ∧
    (∀ (hs : Hdrs) (c : String), getHeader hs "x-cd-authorization" = some c → c ≠ "" →
      pickBearer hs = c) :=
  ⟨buildForwardHeaders_auth_some, buildForwardHeaders_auth_none, pickBearer_carrier⟩

/-- Witness for C9_carrier_over_standard at concrete header maps. -/
theorem C9_carrier_over_standard_witness :
    getHeader (buildForwardHeaders [("authorization", "Bearer STD")]) "authorization" =
      some (pickBearer [("authorization", "Bearer STD")]) ∧
    pickBearer [("x-cd-authorization", "Bearer C"), ("authorization", "Bearer S")] = "Bearer C" :=
  ⟨C9_carrier_over_standard.1 [("authorization", "Bearer STD")] (by decide),
   C9_carrier_over_standard.2.2 [("x-cd-authorization", "Bearer C"), ("authorization", "Bearer S")]
     "Bearer C" rfl (by decide)⟩

/-- Claim C10 (confirmed): surrounding whitespace is irrelevant to the
route-table auth gates: jsTrim erases whitespace padding, and a request
whose supplied credential agrees with the configured secret after trimming
both sides passes authentication and is forwarded. -/
theorem C10_whitespace_trimmed_auth :
    (∀ w1 w2 s : String, w1.data.all isJsSpace = true → w2.data.all isJsSpace = true →
      jsTrim (w1 ++ s ++ w2) = jsTrim s) ∧
    (∀ (env : Env) (mode : Mode) (req : Request) (provided : String),
      getHeader (lowerHeaders req.headers) (modeCredHeader mode) = some provided →
      jsTrim provided = jsTrim (modeSecret env mode) →
      jsTrim (modeSecret env mode) ≠ "" →
      isForward (handleProxyPre env mode req) = true) := by
  constructor
  · exact jsTrim_pad
  · intro env mode req provided hp he hne
    have hgood : jsTrim ((getHeader (lowerHeaders req.headers) (modeCredHeader mode)).getD "") =
        jsTrim (modeSecret env mode) := by
      rw [hp]
      exact he
    rw [handleProxyPre_ok env mode req hne hgood]
    rfl

/-- Witness for C10_whitespace_trimmed_auth: a credential padded with spaces
around the configured secret "tok" authenticates and is forwarded. -/
theorem C10_whitespace_trimmed_auth_witness :
    jsTrim (" " ++ "tok" ++ "  ") = jsTrim "tok" ∧
    isForward (handleProxyPre envC10w Mode.papi reqC10w) = true :=
  ⟨C10_whitespace_trimmed_auth.1 " " "  " "tok" (by decide) (by decide),
   C10_whitespace_trimmed_auth.2 envC10w Mode.papi reqC10w "  tok " rfl (by decide) (by decide)⟩
